import Mathlib

/-!
Verification development for `checker.py` of the ComicUpdateChecker
repository: a shallow embedding of the change-detection engine (the
per-page loop of the script's `__main__` block, the `md5sum` digest
helper and the `SoupHasher` selective extractor), together with theorems
settling the specified properties.

Conventions of the embedding:
* machine bytes are `Nat` values below 256; 32-bit arithmetic is `Nat`
  arithmetic followed by `% 4294967296`;
* Python dictionaries holding page state become a total function
  `String → Option PageRecord`;
* the outcome of `requests.get` is an explicit `FetchResult` value
  (either the raised exception or the received response), and the
  semantics of the `requests` library that the script relies on
  (`Response.ok`, the preloading of the body that exhausts `Response.raw`)
  are modelled explicitly where they are used.
-/

namespace Checker

set_option maxRecDepth 100000

/-! ## UTF-8 encoding (Python `str.encode('utf-8')`) -/

/-- UTF-8 encoding of a single Unicode scalar value, as byte values. -/
def encodeCharUtf8 (c : Char) : List Nat :=
  let n := c.toNat
  if n < 128 then [n]
  else if n < 2048 then [192 + n / 64, 128 + n % 64]
  else if n < 65536 then [224 + n / 4096, 128 + (n / 64) % 64, 128 + n % 64]
  else [240 + n / 262144, 128 + (n / 4096) % 64, 128 + (n / 64) % 64, 128 + n % 64]

/-- UTF-8 encoding of a string: Python's `s.encode('utf-8')`. -/
def utf8Bytes (s : String) : List Nat :=
  (s.data.map encodeCharUtf8).flatten

/-! ## MD5 (`hashlib.md5`)

A complete executable model of the MD5 digest, so that the digests the
script stores and compares are concrete computable values.  `md5hex m`
is the lowercase hexadecimal digest of the byte sequence `m`, exactly
`hashlib.md5(bytes(m)).hexdigest()`. -/

/-- The 64 MD5 sine-derived round constants. -/
def md5K : List Nat :=
  [0xd76aa478, 0xe8c7b756, 0x242070db, 0xc1bdceee,
   0xf57c0faf, 0x4787c62a, 0xa8304613, 0xfd469501,
   0x698098d8, 0x8b44f7af, 0xffff5bb1, 0x895cd7be,
   0x6b901122, 0xfd987193, 0xa679438e, 0x49b40821,
   0xf61e2562, 0xc040b340, 0x265e5a51, 0xe9b6c7aa,
   0xd62f105d, 0x02441453, 0xd8a1e681, 0xe7d3fbc8,
   0x21e1cde6, 0xc33707d6, 0xf4d50d87, 0x455a14ed,
   0xa9e3e905, 0xfcefa3f8, 0x676f02d9, 0x8d2a4c8a,
   0xfffa3942, 0x8771f681, 0x6d9d6122, 0xfde5380c,
   0xa4beea44, 0x4bdecfa9, 0xf6bb4b60, 0xbebfbc70,
   0x289b7ec6, 0xeaa127fa, 0xd4ef3085, 0x04881d05,
   0xd9d4d039, 0xe6db99e5, 0x1fa27cf8, 0xc4ac5665,
   0xf4292244, 0x432aff97, 0xab9423a7, 0xfc93a039,
   0x655b59c3, 0x8f0ccc92, 0xffeff47d, 0x85845dd1,
   0x6fa87e4f, 0xfe2ce6e0, 0xa3014314, 0x4e0811a1,
   0xf7537e82, 0xbd3af235, 0x2ad7d2bb, 0xeb86d391]

/-- The per-round left-rotation amounts. -/
def md5S : List Nat :=
  [7, 12, 17, 22, 7, 12, 17, 22, 7, 12, 17, 22, 7, 12, 17, 22,
   5, 9, 14, 20, 5, 9, 14, 20, 5, 9, 14, 20, 5, 9, 14, 20,
   4, 11, 16, 23, 4, 11, 16, 23, 4, 11, 16, 23, 4, 11, 16, 23,
   6, 10, 15, 21, 6, 10, 15, 21, 6, 10, 15, 21, 6, 10, 15, 21]

/-- 32-bit left rotation on a value below `2 ^ 32`. -/
def rotl32 (x n : Nat) : Nat :=
  ((x <<< n) ||| (x >>> (32 - n))) % 4294967296

/-- 32-bit bitwise complement of a value below `2 ^ 32`. -/
def not32 (x : Nat) : Nat := x ^^^ 0xffffffff

/-- The MD5 nonlinear function of round `i` applied to `b`, `c`, `d`. -/
def md5F (i b c d : Nat) : Nat :=
  if i < 16 then (b &&& c) ||| (not32 b &&& d)
  else if i < 32 then (d &&& b) ||| (not32 d &&& c)
  else if i < 48 then b ^^^ c ^^^ d
  else c ^^^ (b ||| not32 d)

/-- The message-word index used in round `i`. -/
def md5G (i : Nat) : Nat :=
  if i < 16 then i
  else if i < 32 then (5 * i + 1) % 16
  else if i < 48 then (3 * i + 5) % 16
  else (7 * i) % 16

/-- One MD5 round: `st` is `(a, b, c, d)`, `m` the 16 message words. -/
def md5Round (m : List Nat) (st : Nat × Nat × Nat × Nat) (i : Nat) :
    Nat × Nat × Nat × Nat :=
  let a := st.1
  let b := st.2.1
  let c := st.2.2.1
  let d := st.2.2.2
  let f := (md5F i b c d + a + md5K.getD i 0 + m.getD (md5G i) 0) % 4294967296
  (d, (b + rotl32 f (md5S.getD i 0)) % 4294967296, b, c)

/-- Process one 16-word block, folding it into the running state. -/
def md5Block (st : Nat × Nat × Nat × Nat) (m : List Nat) :
    Nat × Nat × Nat × Nat :=
  let r := (List.range 64).foldl (md5Round m) st
  ((st.1 + r.1) % 4294967296, (st.2.1 + r.2.1) % 4294967296,
   (st.2.2.1 + r.2.2.1) % 4294967296, (st.2.2.2 + r.2.2.2) % 4294967296)

/-- Group a byte list into little-endian 32-bit words (length a multiple
of 4 after MD5 padding). -/
def toWordsLE : List Nat → List Nat
  | b0 :: b1 :: b2 :: b3 :: rest =>
      (b0 + 256 * b1 + 65536 * b2 + 16777216 * b3) :: toWordsLE rest
  | _ => []

/-- Split a word list into blocks of 16 words (after MD5 padding the
length is always a multiple of 16). -/
def chunkWords : List Nat → List (List Nat)
  | w0 :: w1 :: w2 :: w3 :: w4 :: w5 :: w6 :: w7 ::
    w8 :: w9 :: w10 :: w11 :: w12 :: w13 :: w14 :: w15 :: rest =>
      [w0, w1, w2, w3, w4, w5, w6, w7, w8, w9, w10, w11, w12, w13, w14, w15] ::
        chunkWords rest
  | _ => []

/-- The eight little-endian bytes of the 64-bit message bit length. -/
def lengthBytesLE (n : Nat) : List Nat :=
  [n % 256, n / 256 % 256, n / 65536 % 256, n / 16777216 % 256,
   n / 4294967296 % 256, n / 1099511627776 % 256,
   n / 281474976710656 % 256, n / 72057594037927936 % 256]

/-- MD5 padding: append `0x80`, zero bytes up to 56 mod 64, then the
64-bit little-endian bit length. -/
def md5Pad (msg : List Nat) : List Nat :=
  msg ++ [128] ++ List.replicate ((119 - msg.length % 64) % 64) 0 ++
    lengthBytesLE ((8 * msg.length) % 18446744073709551616)

/-- Lowercase hexadecimal digit. -/
def hexChar (n : Nat) : Char :=
  if n < 10 then Char.ofNat (48 + n) else Char.ofNat (87 + n)

/-- Two lowercase hex digits of one byte. -/
def byteHex (b : Nat) : String :=
  String.mk [hexChar (b / 16), hexChar (b % 16)]

/-- Little-endian hex rendering of one 32-bit state word. -/
def wordHex (w : Nat) : String :=
  byteHex (w % 256) ++ byteHex (w / 256 % 256) ++ byteHex (w / 65536 % 256) ++
    byteHex (w / 16777216 % 256)

/-- The MD5 hex digest of a byte sequence: `hashlib.md5(m).hexdigest()`. -/
def md5hex (msg : List Nat) : String :=
  let st := (chunkWords (toWordsLE (md5Pad msg))).foldl md5Block
    (0x67452301, 0xefcdab89, 0x98badcfe, 0x10325476)
  wordHex st.1 ++ wordHex st.2.1 ++ wordHex st.2.2.1 ++ wordHex st.2.2.2

/-! ## The selective extractor (`SoupHasher`, lines 55-71)

An HTML document parsed by BeautifulSoup is modelled as its elements in
document order; each element carries its tag name, its attributes and
the bytes of `element.prettify().encode('utf-8')`.  `find_all(name,
attrs)` with a string tag name and a string-valued attribute dictionary
returns, in document order, the elements whose tag equals `name` (any
tag when `name` is `None`) and whose attributes take the required value
at every key of `attrs`. -/

/-- One element of the parsed document. -/
structure Element where
  tag : String
  attrs : List (String × String)
  /-- The bytes of `prettify().encode('utf-8')` for this element. -/
  pretty : List Nat
deriving DecidableEq, Repr

/-- The per-page `criteria` configuration entry: optional tag name
(`criteria.get("name")`) and optional attribute matchers
(`criteria.get("attrs")`). -/
structure Criteria where
  name : Option String := none
  attrs : Option (List (String × String)) := none
deriving DecidableEq, Repr

/-- First value bound to key `k` in an attribute list. -/
def attrLookup (attrs : List (String × String)) (k : String) : Option String :=
  (attrs.find? (fun p => p.1 = k)).map (fun p => p.2)

/-- Does element `e` satisfy the criteria (tag-name filter and every
attribute matcher)? -/
def matchesCriteria (crit : Criteria) (e : Element) : Bool :=
  (match crit.name with
   | none => true
   | some t => decide (e.tag = t)) &&
  (match crit.attrs with
   | none => true
   | some l => l.all (fun p => decide (attrLookup e.attrs p.1 = some p.2)))

/-- `soup.find_all(criteria.get("name"), criteria.get("attrs"))`:
the matching elements in document order. -/
def findAll (doc : List Element) (crit : Criteria) : List Element :=
  doc.filter (matchesCriteria crit)

/-- The state of a `SoupHasher`: the reversed `find_all` result list
(`[::-1]`) still to be served, and the buffered remainder `_buf` of the
element currently being served. -/
structure SoupHasher where
  results : List Element
  buf : List Nat
deriving DecidableEq, Repr

/-- `SoupHasher.__init__`: reverse the `find_all` results, empty buffer. -/
def mkSoupHasher (doc : List Element) (crit : Criteria) : SoupHasher :=
  { results := (findAll doc crit).reverse, buf := [] }

/-- `SoupHasher.read(n)`: refill the buffer from `results.pop(-1)` when
empty, then serve the first `n` buffered bytes. -/
def SoupHasher.read (h : SoupHasher) (n : Nat) : List Nat × SoupHasher :=
  if h.buf.isEmpty then
    match h.results.getLast? with
    | none => ([], h)
    | some e =>
        (e.pretty.take n, { results := h.results.dropLast, buf := e.pretty.drop n })
  else
    (h.buf.take n, { results := h.results, buf := h.buf.drop n })

/-- `READ_BUFFER_SIZE = 1024 * 1024` (line 35). -/
def READ_BUFFER_SIZE : Nat := 1024 * 1024

/-- Total bytes and elements still to be served; decreases at every
productive `read`. -/
def SoupHasher.size (h : SoupHasher) : Nat :=
  h.buf.length + (h.results.map (fun e => e.pretty.length + 1)).sum

/-- The loop of `md5sum` (lines 46-51) applied to a `SoupHasher`:
read chunks of `READ_BUFFER_SIZE` bytes until a read returns no data,
concatenating everything read. -/
def SoupHasher.readAll (h : SoupHasher) : List Nat :=
  if hd : ((h.read READ_BUFFER_SIZE).1).isEmpty then []
  else (h.read READ_BUFFER_SIZE).1 ++ ((h.read READ_BUFFER_SIZE).2).readAll
termination_by h.size
decreasing_by
  unfold SoupHasher.read at hd ⊢
  by_cases hb : h.buf.isEmpty
  · simp only [hb, if_true] at hd ⊢
    cases hl : h.results.getLast? with
    | none => simp [hl] at hd
    | some e =>
        simp only [hl] at hd ⊢
        have hsplit : h.results = h.results.dropLast ++ [e] := by
          rcases List.getLast?_eq_some_iff.mp hl with ⟨ys, hy⟩
          rw [hy, List.dropLast_concat]
        unfold SoupHasher.size
        conv_rhs => rw [hsplit]
        rw [List.isEmpty_iff] at hb
        simp [hb, List.length_drop]
        omega
  · simp only [hb, if_false] at hd ⊢
    have hpos : 0 < h.buf.length := by
      cases hbuf : h.buf with
      | nil => rw [hbuf] at hb; simp at hb
      | cons a l => simp [hbuf]
    simp [SoupHasher.size, READ_BUFFER_SIZE]
    omega

/-- `md5sum(SoupHasher(...))`: since `hashlib`'s incremental `update`
over successive chunks digests their concatenation, this is the MD5 hex
digest of all bytes the reader yields. -/
def md5sumSoup (h : SoupHasher) : String := md5hex h.readAll

/-! ## Persisted per-page state and the run's inputs -/

/-- One entry of the persisted `data` mapping: the JSON object stored
under a page's name.  The script reads and writes exactly the keys
`"last_modified"`, `"hash"` and `"last_error"`; an absent key is
`none`.  The all-`none` record also stands for the empty dict `{}`
(the two are indistinguishable through the `.get` accesses the script
performs). -/
structure PageRecord where
  last_modified : Option String := none
  hash : Option String := none
  last_error : Option Bool := none
deriving DecidableEq, Repr

/-- The persisted state mapping `data`, keyed by page name. -/
def DataMap : Type := String → Option PageRecord

/-- A fresh `data = {}`. -/
def emptyData : DataMap := fun _ => none

/-- `data.setdefault(name, {})[field] = v`: update the record under
`name` (inserting an empty record first when absent) by `f`. -/
def setRecord (data : DataMap) (name : String) (f : PageRecord → PageRecord) :
    DataMap :=
  fun k => if k = name then some (f ((data name).getD {})) else data k

/-- The command-line switches that reach the per-page loop. -/
structure Args where
  only_show_changes : Bool := false
  break_on_error : Bool := false
deriving DecidableEq, Repr

/-- One entry of `comic_config`: the keys the loop reads.
`override-last-modified` and `criteria` are read with `.get`, so their
absence is falsiness; `criteria` present holds the extractor's filters. -/
structure PageConfig where
  url : String
  overrideLastModified : Bool := false
  criteria : Option Criteria := none
deriving DecidableEq, Repr

/-- A completed HTTP response as the script consumes it.
`doc` is the element list of `BeautifulSoup(r.text)` in document order;
`reason` is `r.reason` as used in the failure display.  The body text
`body` is carried to relate the stored digest to the served content. -/
structure Response where
  status : Nat
  lastModified : Option String := none
  body : String := ""
  doc : List Element := []
  reason : String := ""
deriving DecidableEq, Repr

/-- `requests.Response.ok`: true exactly when the status code is below
400 (`raise_for_status` raises only for 4xx and 5xx). -/
def Response.ok (r : Response) : Bool := decide (r.status < 400)

/-- `requests.get` without `stream=True` preloads the whole body into
`r.content` (`Session.send` runs `r.content` when `stream` is false),
so by the time `md5sum(r.raw)` runs, the underlying `urllib3` stream is
exhausted and every `r.raw.read(n)` returns `b""`: the bytes `md5sum`
consumes from `r.raw` are none at all. -/
def rawStreamBytes (_ : Response) : List Nat := []

/-- `md5sum(r.raw)`: the digest of the bytes actually read from the
exhausted raw stream. -/
def md5sumRaw (r : Response) : String := md5hex (rawStreamBytes r)

/-- What `requests.get(configuration["url"], headers=headers)` produced:
either a raised exception (captured into `error`) or a response. -/
inductive FetchResult where
  | exn (detail : String)
  | resp (r : Response)
deriving DecidableEq, Repr

/-- Which branch of the loop decided the page, in the vocabulary of the
specification's `ChangeVerdict.reason`. -/
inductive Reason where
  | timestamp
  | hash
  | unmodified
  | error
deriving DecidableEq, Repr

/-- The observable effect of evaluating one page: the updated `data`
mapping, the lines printed to stdout, and the verdict. -/
structure StepResult where
  data : DataMap
  lines : List String
  changed : Bool
  reason : Reason

/-- Evaluating a page either re-raises the captured transport error
(`--break-on-error`) or completes with a `StepResult`. -/
inductive Outcome where
  | raised (detail : String)
  | done (res : StepResult)

/-- Did the evaluation re-raise? -/
def Outcome.isRaised : Outcome → Bool
  | .raised _ => true
  | .done _ => false

/-- The completed result (junk default when raised). -/
def Outcome.resultD : Outcome → StepResult
  | .raised _ => { data := emptyData, lines := [], changed := false, reason := .error }
  | .done res => res

/-- The data mapping after the evaluation; a raise leaves the prior
mapping in place. -/
def Outcome.dataD : Outcome → DataMap → DataMap
  | .raised _, d => d
  | .done res, _ => res.data

/-- The line `print("Failed to fetch", configuration["url"] + ":", detail)`
produces, where `detail` renders `getattr(r or error, "reason", None) or
getattr(error, "args", None)`. -/
def failedLine (url detail : String) : String :=
  "Failed to fetch " ++ url ++ ": " ++ detail

/-! ### `datetime.datetime.strptime(last_modified, TIMESTAMP_FORMAT)`

Line 234 parses the `Last-Modified` header before printing, and raises
`ValueError` for any value not matching the format — aborting the run
before the state writes at lines 235-236.  The parser below models
CPython's `_strptime` for the format `"%a, %d %b %Y %H:%M:%S %Z"` under
the C locale: abbreviated English weekday and month names, the numeric
field patterns of `_strptime.TimeRE` (1-2 digit day/hour/minute/second,
exactly 4 digit year), a whitespace run for each space of the format,
the timezone names `GMT`/`UTC` (locale-dependent zone names are
environment-specific and omitted), case-insensitive matching, and a
whole-string match ("unconverted data remains" otherwise); the
`datetime` constructor then enforces `MINYEAR`, the day range of the
month, and seconds below 60. -/

/-- `TIMESTAMP_FORMAT = "%a, %d %b %Y %H:%M:%S %Z"` (line 34). -/
def TIMESTAMP_FORMAT : String := "%a, %d %b %Y %H:%M:%S %Z"

/-- ASCII lowercasing, for the parser's case-insensitive matching. -/
def asciiLower (c : Char) : Char :=
  if 65 ≤ c.toNat ∧ c.toNat ≤ 90 then Char.ofNat (c.toNat + 32) else c

/-- A character of the regex class `\s`. -/
def isSpaceChar (c : Char) : Bool :=
  c.toNat = 32 || c.toNat = 9 || c.toNat = 10 || c.toNat = 13 ||
    c.toNat = 11 || c.toNat = 12

/-- Drop leading whitespace. -/
def dropSpaces : List Char → List Char
  | c :: rest => if isSpaceChar c then dropSpaces rest else c :: rest
  | [] => []

/-- Match `\s+` (one space of the format): at least one whitespace
character, consumed greedily. -/
def skipSpaces1 (cs : List Char) : Option (List Char) :=
  match cs with
  | c :: rest => if isSpaceChar c then some (dropSpaces rest) else none
  | [] => none

/-- ASCII decimal digit? -/
def isDigitChar (c : Char) : Bool := 48 ≤ c.toNat && c.toNat ≤ 57

/-- Numeric value of a digit character. -/
def digitVal (c : Char) : Nat := c.toNat - 48

/-- Parse one or two digits, greedily (the `TimeRE` patterns put the
two-digit alternatives first). -/
def parse2Digit (cs : List Char) : Option (Nat × List Char) :=
  match cs with
  | c1 :: c2 :: rest =>
      if isDigitChar c1 then
        if isDigitChar c2 then some (10 * digitVal c1 + digitVal c2, rest)
        else some (digitVal c1, c2 :: rest)
      else none
  | [c1] => if isDigitChar c1 then some (digitVal c1, []) else none
  | [] => none

/-- Parse exactly four digits (`%Y` is `\d\d\d\d`). -/
def parse4Digit (cs : List Char) : Option (Nat × List Char) :=
  match cs with
  | c1 :: c2 :: c3 :: c4 :: rest =>
      if isDigitChar c1 && isDigitChar c2 && isDigitChar c3 && isDigitChar c4 then
        some (1000 * digitVal c1 + 100 * digitVal c2 + 10 * digitVal c3 +
          digitVal c4, rest)
      else none
  | _ => none

/-- Strip the token `tok` (given lowercase) from the front of `cs`,
case-insensitively. -/
def stripToken (tok : List Char) (cs : List Char) : Option (List Char) :=
  match tok, cs with
  | [], rest => some rest
  | t :: ts, c :: rest => if asciiLower c = t then stripToken ts rest else none
  | _ :: _, [] => none

/-- Strip the first name of `names` matching a prefix of `cs`, returning
its index and the remainder. -/
def stripFirst (names : List (List Char)) (cs : List Char) :
    Option (Nat × List Char) :=
  match names with
  | [] => none
  | n :: rest =>
      match stripToken n cs with
      | some cs2 => some (0, cs2)
      | none =>
          match stripFirst rest cs with
          | some p => some (p.1 + 1, p.2)
          | none => none

/-- The abbreviated weekday names `%a` accepts (C locale). -/
def weekdayNames : List (List Char) :=
  ["mon", "tue", "wed", "thu", "fri", "sat", "sun"].map String.data

/-- The abbreviated month names `%b` accepts (C locale); index + 1 is
the month number. -/
def monthNames : List (List Char) :=
  ["jan", "feb", "mar", "apr", "may", "jun",
   "jul", "aug", "sep", "oct", "nov", "dec"].map String.data

/-- The timezone names `%Z` accepts. -/
def tzNames : List (List Char) := ["gmt", "utc"].map String.data

/-- Gregorian leap year. -/
def isLeapYear (y : Nat) : Bool := (y % 4 = 0 && y % 100 ≠ 0) || y % 400 = 0

/-- Days in a month, as the `datetime` constructor enforces. -/
def daysInMonth (y m : Nat) : Nat :=
  if m = 2 then (if isLeapYear y then 29 else 28)
  else if m = 4 ∨ m = 6 ∨ m = 9 ∨ m = 11 then 30
  else 31

/-- The fields of the `datetime` value `strptime` constructs (naive:
`%Z` sets no offset, so `str()` renders `"YYYY-MM-DD HH:MM:SS"`). -/
structure ParsedTime where
  year : Nat
  month : Nat
  day : Nat
  hour : Nat
  minute : Nat
  second : Nat
deriving DecidableEq, Repr

/-- `datetime.datetime.strptime(s, TIMESTAMP_FORMAT)`: the constructed
datetime's fields, or `none` where CPython raises `ValueError`. -/
def strptimeTimestamp (s : String) : Option ParsedTime :=
  match stripFirst weekdayNames s.data with
  | none => none
  | some (_wd, r1) =>
    match r1 with
    | ',' :: r2 =>
      match skipSpaces1 r2 with
      | none => none
      | some r3 =>
        match parse2Digit r3 with
        | none => none
        | some (d, r4) =>
          -- the %d pattern admits 1..31 only
          if d = 0 || 31 < d then none
          else match skipSpaces1 r4 with
          | none => none
          | some r5 =>
            match stripFirst monthNames r5 with
            | none => none
            | some (mIdx, r6) =>
              match skipSpaces1 r6 with
              | none => none
              | some r7 =>
                match parse4Digit r7 with
                | none => none
                | some (y, r8) =>
                  match skipSpaces1 r8 with
                  | none => none
                  | some r9 =>
                    match parse2Digit r9 with
                    | none => none
                    | some (h, r10) =>
                      if 23 < h then none
                      else match r10 with
                      | ':' :: r11 =>
                        match parse2Digit r11 with
                        | none => none
                        | some (mi, r12) =>
                          if 59 < mi then none
                          else match r12 with
                          | ':' :: r13 =>
                            match parse2Digit r13 with
                            | none => none
                            | some (sec, r14) =>
                              -- TimeRE admits the leap seconds 60 and 61,
                              -- but the datetime constructor rejects them
                              if 59 < sec then none
                              else match skipSpaces1 r14 with
                              | none => none
                              | some r15 =>
                                match stripFirst tzNames r15 with
                                | none => none
                                | some (_tz, r16) =>
                                  -- whole-string match, MINYEAR, day range
                                  if r16 = [] && 1 ≤ y &&
                                      d ≤ daysInMonth y (mIdx + 1) then
                                    some { year := y, month := mIdx + 1,
                                           day := d, hour := h,
                                           minute := mi, second := sec }
                                  else none
                          | _ => none
                      | _ => none
    | _ => none

/-- Zero-pad to two digits. -/
def pad2 (n : Nat) : String := if n < 10 then "0" ++ toString n else toString n

/-- Zero-pad a year to four digits. -/
def pad4 (n : Nat) : String :=
  if n < 10 then "000" ++ toString n
  else if n < 100 then "00" ++ toString n
  else if n < 1000 then "0" ++ toString n
  else toString n

/-- `str(datetime(...))` for a whole-second naive datetime. -/
def datetimeStr (t : ParsedTime) : String :=
  pad4 t.year ++ "-" ++ pad2 t.month ++ "-" ++ pad2 t.day ++ " " ++
    pad2 t.hour ++ ":" ++ pad2 t.minute ++ ":" ++ pad2 t.second

/-- Python `name.upper()`: per-character uppercasing. -/
def upperStr (s : String) : String := String.mk (s.data.map Char.toUpper)

/-- Python truthiness of the JSON value read by
`data_item.get("last_modified")`: absent and the empty string are falsy. -/
def truthyStr : Option String → Bool
  | none => false
  | some s => decide (s ≠ "")

/-- Does the loop send an `If-Modified-Since` header for this page
(lines 180-186)?  Recorded for completeness: the header shapes the
request whose outcome is this embedding's `FetchResult` input. -/
def sendsIfModifiedSince (configuration : PageConfig) (data : DataMap)
    (name : String) : Bool :=
  truthyStr ((data name).getD {}).last_modified && !configuration.overrideLastModified

/-- The body of `for name, configuration in comic_config.items():`
(lines 172-236), evaluated for one page.

Inputs: the command-line `args`, the page's `name` and configuration,
the whole persisted mapping `data` (the failure branch reads
`data.get("name")` — the literal key — so the page's own record does
not suffice), the outcome of `requests.get`, and `now`, the value
`datetime.datetime.now().strftime(TIMESTAMP_FORMAT)` would produce. -/
def checkPage (args : Args) (name : String) (configuration : PageConfig)
    (data : DataMap) (fetch : FetchResult) (now : String) : Outcome :=
  -- data_item = data.get(name); if not data_item: data_item = {}
  let data_item : PageRecord := (data name).getD {}
  match fetch with
  | .exn errDetail =>
      -- error is not None; r is None, so getattr(r, "status_code", None)
      -- is None and the 304 test fails
      if args.break_on_error then
        -- raise error from None
        Outcome.raised errDetail
      else
        -- last_error = data.get("name", {}).get("last_error"):
        -- the source reads the literal key "name", not the loop variable
        let last_error := ((data "name").getD {}).last_error
        let data1 := setRecord data name (fun rec => { rec with last_error := some true })
        if args.only_show_changes && last_error.getD false then
          Outcome.done { data := data1, lines := [], changed := false, reason := .error }
        else
          Outcome.done { data := data1, lines := [failedLine configuration.url errDetail],
                         changed := false, reason := .error }
  | .resp r =>
      if r.ok then
        -- else branch of `if error is not None or not r.ok`
        let hashBranch : Outcome :=
          -- Server doesn't support last modified; we'll have to do it ourselves
          let hexdigest :=
            match configuration.criteria with
            | some crit => md5sumSoup (mkSoupHasher r.doc crit)
            | none => md5sumRaw r
          if data_item.hash ≠ some hexdigest then
            -- last_modified = datetime.datetime.now().strftime(TIMESTAMP_FORMAT)
            -- (assigned to the local variable only; never written to data)
            let _last_modified_local := now
            let data1 := setRecord data name (fun rec => { rec with hash := some hexdigest })
            Outcome.done { data := data1,
                           lines := ["* " ++ upperStr name ++ " modified (checked via hash)"],
                           changed := true, reason := .hash }
          else
            Outcome.done { data := data,
                           lines := if args.only_show_changes then []
                                    else [name ++ " unmodified (checked via hash)"],
                           changed := false, reason := .unmodified }
        match r.lastModified with
        | none => hashBranch
        | some lm =>
            if configuration.overrideLastModified then hashBranch
            else
              match strptimeTimestamp lm with
              | none =>
                  -- datetime.strptime(last_modified, TIMESTAMP_FORMAT) at
                  -- line 234 raises ValueError inside the print's format
                  -- call, before the writes at lines 235-236; the
                  -- exception propagates and aborts the run
                  Outcome.raised ("ValueError: time data " ++ lm ++
                    " does not match format " ++ TIMESTAMP_FORMAT)
              | some t =>
                  let data1 := setRecord data name (fun rec => { rec with last_error := some false })
                  let data2 := setRecord data1 name (fun rec => { rec with last_modified := some lm })
                  Outcome.done { data := data2,
                                 lines := ["* " ++ upperStr name ++ " modified " ++ datetimeStr t],
                                 changed := true, reason := .timestamp }
      else
        if r.status == 304 then
          -- unreachable for a requests response: ok is already true for 304;
          -- kept from the source (written for a urllib-style HTTPError)
          Outcome.done { data := data,
                         lines := if args.only_show_changes then []
                                  else [name ++ " unmodified (error)"],
                         changed := false, reason := .unmodified }
        else
          -- `args.break_on_error and error is not None` is false here: error is None
          let last_error := ((data "name").getD {}).last_error
          let data1 := setRecord data name (fun rec => { rec with last_error := some true })
          if args.only_show_changes && last_error.getD false then
            Outcome.done { data := data1, lines := [], changed := false, reason := .error }
          else
            Outcome.done { data := data1, lines := [failedLine configuration.url r.reason],
                           changed := false, reason := .error }

/-- Did the fetch end in a transport failure or a non-success response
(the `error is not None or not r.ok` test, with the not-modified case
excluded below)? -/
def fetchFailed : FetchResult → Bool
  | .exn _ => true
  | .resp r => !r.ok

/-- Does the evaluation survive the timestamp branch for this page:
the `Last-Modified` header is absent, overridden, or parseable?
(`checkPage` raises through `strptime` exactly when this is false.) -/
def lastModifiedParseable (configuration : PageConfig) (r : Response) : Bool :=
  match r.lastModified with
  | none => true
  | some lm => configuration.overrideLastModified || (strptimeTimestamp lm).isSome

/-! ## Concrete fixtures

Inputs for the end-to-end and counterexample theorems below. -/

/-- The page `"foo"` of the end-to-end scenario: no selection criterion,
no override. -/
def fooConfig : PageConfig := { url := "http://example.test/foo" }

/-- First-run response: 200, no `Last-Modified`, body `"<html>v1</html>"`. -/
def fooResp1 : Response := { status := 200, body := "<html>v1</html>", reason := "OK" }

/-- Second-run response: same page, body changed to `"<html>v2</html>"`. -/
def fooResp2 : Response := { status := 200, body := "<html>v2</html>", reason := "OK" }

/-- C1 scenario, first run from empty state. -/
def c1Step1 : Outcome :=
  checkPage {} "foo" fooConfig emptyData (.resp fooResp1) "Mon, 01 Jan 2024 10:00:00 GMT"

/-- The state the first run persisted. -/
def c1Data1 : DataMap := c1Step1.dataD emptyData

/-- C1 scenario, second run against the stored state, body now v2. -/
def c1Step2 : Outcome :=
  checkPage {} "foo" fooConfig c1Data1 (.resp fooResp2) "Tue, 02 Jan 2024 10:00:00 GMT"

/-- Prior state for the not-modified scenario: a stored timestamp (so a
conditional request is sent) and a stored digest. -/
def c2Prior : DataMap := fun k =>
  if k = "foo" then
    some { last_modified := some "Mon, 01 Jan 2024 00:00:00 GMT",
           hash := some "5d41402abc4b2a76b9719d911017c592" }
  else none

/-- The server's answer to the conditional request: HTTP 304, empty body,
no `Last-Modified` header. -/
def c2Resp : Response := { status := 304, reason := "Not Modified" }

/-- Evaluating the 304 answer. -/
def c2Step : Outcome := checkPage {} "foo" fooConfig c2Prior (.resp c2Resp) "now"

/-- `--only-show-changes` on, as in the repeat-failure suppression scenario. -/
def c3Args : Args := { only_show_changes := true }

/-- First consecutive transport failure, from empty state. -/
def c3Step1 : Outcome := checkPage c3Args "foo" fooConfig emptyData (.exn "timeout") "now"

/-- State after the first failure. -/
def c3Data1 : DataMap := c3Step1.dataD emptyData

/-- Second consecutive transport failure, against the stored state. -/
def c3Step2 : Outcome := checkPage c3Args "foo" fooConfig c3Data1 (.exn "timeout") "now"

/-- Hash-fallback run with a changed digest and a known current time. -/
def c4Step : Outcome :=
  checkPage {} "foo" fooConfig emptyData (.resp fooResp1) "Mon, 01 Jan 2024 10:00:00 GMT"

/-- A 200 response carrying a `Last-Modified` header. -/
def c5Resp : Response :=
  { status := 200, lastModified := some "Mon, 01 Jan 2024 00:00:00 GMT", reason := "OK" }

/-- Prior state with a stored digest and a set failure flag, to observe
the carry-over and the clearing. -/
def c5Prior : DataMap := fun k =>
  if k = "foo" then
    some { hash := some "5d41402abc4b2a76b9719d911017c592", last_error := some true }
  else none

/-- A 200 response whose `Last-Modified` value is an HTTP-legal RFC-850
date: `%a` expects an abbreviated weekday, so `strptime` rejects it. -/
def c5BadResp : Response :=
  { status := 200, lastModified := some "Sunday, 06-Nov-94 08:49:37 GMT",
    body := "x", reason := "OK" }

/-- A 200 response whose `Last-Modified` value is an asctime-style date:
no comma follows the weekday, so `strptime` rejects it. -/
def c8BadResp : Response :=
  { status := 200, lastModified := some "Sun Nov  6 08:49:37 1994",
    body := "x", reason := "OK" }

/-- A failing response (HTTP 500). -/
def c6Resp : Response := { status := 500, reason := "Internal Server Error" }

/-- A document with two `div#content` elements around an unrelated `p`. -/
def c7Doc : List Element :=
  [{ tag := "div", attrs := [("id", "content")],
     pretty := utf8Bytes "<div>\n hello\n</div>\n" },
   { tag := "p", attrs := [],
     pretty := utf8Bytes "<p>\n x\n</p>\n" },
   { tag := "div", attrs := [("id", "content")],
     pretty := utf8Bytes "<div>\n world\n</div>\n" }]

/-- The criterion `{tag_name: "div", attributes: {"id": "content"}}`. -/
def c7Crit : Criteria := { name := some "div", attrs := some [("id", "content")] }

/-- A response for the C8 witness: 200 with neither header nor criteria. -/
def c8Resp : Response := { status := 200, body := "page", reason := "OK" }

/-- A response whose digest already matches the stored one, for the C10
witness: the raw stream digests to the empty digest. -/
def c10Prior : DataMap := fun k =>
  if k = "foo" then
    some { hash := some "d41d8cd98f00b204e9800998ecf8427e", last_error := some true }
  else none

/-! ## Sanity checks of the digest engine -/

/-- `hashlib.md5(b"").hexdigest()`: the digest of empty input. -/
theorem md5hex_nil : md5hex [] = "d41d8cd98f00b204e9800998ecf8427e" := by decide

/-- The RFC 1321 test vector for `"abc"`. -/
theorem md5hex_abc : md5hex (utf8Bytes "abc") = "900150983cd24fb0d6963f7d28e17f72" := by
  decide

/-! ## Behaviour of the extractor's reader -/

theorem SoupHasher.read_buf_cons (results : List Element) (b : Nat) (bs : List Nat)
    (n : Nat) :
    SoupHasher.read ⟨results, b :: bs⟩ n =
      ((b :: bs).take n, ⟨results, (b :: bs).drop n⟩) := by
  unfold SoupHasher.read
  simp

theorem SoupHasher.read_exhausted (n : Nat) :
    SoupHasher.read ⟨[], []⟩ n = ([], ⟨[], []⟩) := by
  unfold SoupHasher.read
  simp

theorem SoupHasher.read_pop (results : List Element) (e : Element) (n : Nat) :
    SoupHasher.read ⟨results ++ [e], []⟩ n =
      (e.pretty.take n, ⟨results, e.pretty.drop n⟩) := by
  unfold SoupHasher.read
  simp [List.getLast?_concat, List.dropLast_concat]

/-- Draining a `SoupHasher` whose pending serializations are all nonempty
yields the buffered bytes followed by the pending elements' bytes in pop
order (the last of `results` is served first). -/
theorem SoupHasher.readAll_bounded (k : Nat) :
    ∀ (results : List Element) (buf : List Nat),
      SoupHasher.size ⟨results, buf⟩ ≤ k →
      (∀ e ∈ results, e.pretty ≠ []) →
      SoupHasher.readAll ⟨results, buf⟩ =
        buf ++ (results.reverse.map Element.pretty).flatten := by
  induction k with
  | zero =>
      intro results buf hk hne
      unfold SoupHasher.size at hk
      cases buf with
      | cons b bs => exfalso; simp only [List.length_cons] at hk; omega
      | nil =>
          cases results with
          | cons e rest =>
              exfalso
              simp only [List.map_cons, List.sum_cons, List.length_nil] at hk
              omega
          | nil =>
              rw [SoupHasher.readAll]
              simp [SoupHasher.read_exhausted]
  | succ k ih =>
      intro results buf hk hne
      cases hbuf : buf with
      | cons b bs =>
          rw [SoupHasher.readAll, SoupHasher.read_buf_cons]
          have hne2 : (((b :: bs).take READ_BUFFER_SIZE).isEmpty) = false := by
            rw [Bool.eq_false_iff]
            intro hc
            rw [List.isEmpty_iff, List.take_eq_nil_iff] at hc
            rcases hc with hc | hc
            · exact absurd hc (by decide)
            · exact List.cons_ne_nil b bs hc
          rw [dif_neg (by simp [hne2])]
          have hsz : SoupHasher.size ⟨results, (b :: bs).drop READ_BUFFER_SIZE⟩ ≤ k := by
            unfold SoupHasher.size at hk ⊢
            rw [hbuf] at hk
            simp only [List.length_drop] at hk ⊢
            simp only [List.length_cons] at hk ⊢
            have : (0 : Nat) < READ_BUFFER_SIZE := by decide
            omega
          rw [ih results ((b :: bs).drop READ_BUFFER_SIZE) hsz hne]
          rw [← List.append_assoc, List.take_append_drop]
      | nil =>
          cases hl : results.getLast? with
          | none =>
              have hres : results = [] := List.getLast?_eq_none_iff.mp hl
              subst hres
              rw [SoupHasher.readAll]
              simp [SoupHasher.read_exhausted]
          | some e =>
              rcases List.getLast?_eq_some_iff.mp hl with ⟨ys, hy⟩
              subst hy
              have hemem : e ∈ ys ++ [e] := by simp
              have hep : e.pretty ≠ [] := hne e hemem
              rw [SoupHasher.readAll, SoupHasher.read_pop]
              have hne2 : ((e.pretty.take READ_BUFFER_SIZE).isEmpty) = false := by
                rw [Bool.eq_false_iff]
                intro hc
                rw [List.isEmpty_iff, List.take_eq_nil_iff] at hc
                rcases hc with hc | hc
                · exact absurd hc (by decide)
                · exact hep hc
              rw [dif_neg (by simp [hne2])]
              have hsz : SoupHasher.size ⟨ys, e.pretty.drop READ_BUFFER_SIZE⟩ ≤ k := by
                unfold SoupHasher.size at hk ⊢
                simp only [List.map_append, List.sum_append, List.length_drop] at hk ⊢
                simp at hk ⊢
                omega
              have hys : ∀ x ∈ ys, x.pretty ≠ [] := by
                intro x hx
                exact hne x (by simp [hx])
              rw [ih ys (e.pretty.drop READ_BUFFER_SIZE) hsz hys]
              rw [← List.append_assoc, List.take_append_drop]
              simp [List.reverse_append]

/-- The digest `md5sum(SoupHasher(soup, criteria))` computes is the MD5
digest of the matched elements' pretty-printed bytes, concatenated in
document order.  The hypothesis records that `prettify` never serializes
an element to the empty string. -/
theorem md5sumSoup_eq (doc : List Element) (crit : Criteria)
    (hne : ∀ e ∈ findAll doc crit, e.pretty ≠ []) :
    md5sumSoup (mkSoupHasher doc crit) =
      md5hex (((findAll doc crit).map Element.pretty).flatten) := by
  unfold md5sumSoup mkSoupHasher
  rw [SoupHasher.readAll_bounded (SoupHasher.size ⟨(findAll doc crit).reverse, []⟩)
    (findAll doc crit).reverse [] le_rfl
    (by intro e he; exact hne e (List.mem_reverse.mp he))]
  simp [List.reverse_reverse]

/-! ## The claims -/

/-- C1: end-to-end raw-body hashing, the code's actual behaviour.  The
first run does report a change and prints `"* FOO modified (checked via
hash)"`, but the digest it stores is the digest of zero bytes — `r.raw`
is already exhausted because `stream=True` was never passed — not the
digest of the body `"<html>v1</html>"`; consequently the second run,
whose body changed to `"<html>v2</html>"`, computes the same empty
digest and reports *unmodified*, leaving the state unchanged. -/
theorem c1_raw_hash_code_behavior :
    c1Step1.resultD.lines = ["* FOO modified (checked via hash)"] ∧
    c1Step1.resultD.changed = true ∧
    c1Step1.resultD.reason = Reason.hash ∧
    c1Data1 "foo" = some { hash := some "d41d8cd98f00b204e9800998ecf8427e" } ∧
    md5hex (utf8Bytes "<html>v1</html>") ≠ "d41d8cd98f00b204e9800998ecf8427e" ∧
    c1Step2.resultD.changed = false ∧
    c1Step2.resultD.reason = Reason.unmodified ∧
    c1Step2.resultD.lines = ["foo unmodified (checked via hash)"] ∧
    c1Step2.resultD.data "foo" = c1Data1 "foo" := by
  decide

/-- C2: the not-modified short-circuit, the code's actual behaviour.  A
conditional request was sent and the server answered HTTP 304, but
`requests` marks a 304 response as `ok` (status below 400), so the
explicit 304 branch is unreachable and evaluation falls into the success
branch: the empty 304 body is hashed, the page is reported *modified*,
and the stored digest is overwritten — instead of `changed = false` with
the state unchanged. -/
theorem c2_not_modified_code_behavior :
    sendsIfModifiedSince fooConfig c2Prior "foo" = true ∧
    Response.ok c2Resp = true ∧
    c2Step.resultD.changed = true ∧
    c2Step.resultD.reason = Reason.hash ∧
    c2Step.resultD.lines = ["* FOO modified (checked via hash)"] ∧
    c2Step.resultD.data "foo" =
      some { last_modified := some "Mon, 01 Jan 2024 00:00:00 GMT",
             hash := some "d41d8cd98f00b204e9800998ecf8427e" } := by
  decide

/-- C3: sticky failure tracking, the code's actual behaviour.  The first
transport failure stores `last_error = true` under `"foo"` and prints the
failure; but the suppression test reads `data.get("name")` — the literal
key — so on the second consecutive failure the prior flag reads as
absent and the failure line is printed again even under
`--only-show-changes`, instead of being suppressed as a repeat. -/
theorem c3_sticky_failure_code_behavior :
    c3Step1.resultD.lines = [failedLine "http://example.test/foo" "timeout"] ∧
    c3Data1 "foo" = some { last_error := some true } ∧
    c3Step2.resultD.changed = false ∧
    c3Step2.resultD.lines = [failedLine "http://example.test/foo" "timeout"] := by
  decide

/-- C4: hash-change state update, the code's actual behaviour.  On the
hash path with a changed digest, the current wall-clock time (`now`,
here a concrete timestamp) is assigned only to a local variable; the
persisted record receives the new digest but *no* last-modified
timestamp. -/
theorem c4_hash_change_code_behavior :
    c4Step.resultD.changed = true ∧
    c4Step.resultD.reason = Reason.hash ∧
    c4Step.resultD.data "foo" =
      some { last_modified := none,
             hash := some "d41d8cd98f00b204e9800998ecf8427e",
             last_error := none } := by
  decide

/-- C5 counterexample to the claim as stated: a fetch succeeding with a
`Last-Modified` header present (an HTTP-legal RFC-850 date) and no
override — "usable" by the specification's definition — does not yield a
`changed = true` verdict: `strptime` rejects the value and the
evaluation raises `ValueError` inside the display line's format call,
before any state write, so the prior record (timestamp, digest, set
failure flag) is left exactly as it was. -/
theorem c5_timestamp_unparseable_raises :
    Response.ok c5BadResp = true ∧
    c5BadResp.lastModified = some "Sunday, 06-Nov-94 08:49:37 GMT" ∧
    strptimeTimestamp "Sunday, 06-Nov-94 08:49:37 GMT" = none ∧
    (checkPage {} "foo" fooConfig c5Prior (.resp c5BadResp) "now").isRaised = true ∧
    (checkPage {} "foo" fooConfig c5Prior (.resp c5BadResp) "now").dataD c5Prior "foo"
      = c5Prior "foo" := by
  decide

/-- C5 (amended): for every page whose fetch succeeds with a
`Last-Modified` header that parses under `TIMESTAMP_FORMAT` and no
override flag, the verdict is `changed = true` with reason `timestamp`;
the new state stores that timestamp and clears the last-fetch-failed
flag while the prior digest is carried over unchanged (the record update
touches no other field).  A present but unparseable header instead
raises before any state write (`c5_timestamp_unparseable_raises`
shows this at a concrete input). -/
theorem c5_timestamp_path (args : Args) (name : String) (cfg : PageConfig)
    (data : DataMap) (r : Response) (now lm : String) (t : ParsedTime)
    (hok : r.ok = true) (hlm : r.lastModified = some lm)
    (hov : cfg.overrideLastModified = false)
    (hparse : strptimeTimestamp lm = some t) :
    (checkPage args name cfg data (.resp r) now).isRaised = false ∧
    (checkPage args name cfg data (.resp r) now).resultD.changed = true ∧
    (checkPage args name cfg data (.resp r) now).resultD.reason = Reason.timestamp ∧
    (checkPage args name cfg data (.resp r) now).resultD.data name =
      some { (data name).getD {} with
             last_modified := some lm, last_error := some false } := by
  simp [checkPage, hlm, hok, hov, hparse, Outcome.isRaised, Outcome.resultD,
    setRecord]

/-- Witness for C5 at a concrete input: a parseable RFC-1123 header,
prior state with a stored digest and a set failure flag; the digest is
carried over and the flag cleared. -/
theorem c5_timestamp_path_witness :
    (Response.ok c5Resp = true ∧
     c5Resp.lastModified = some "Mon, 01 Jan 2024 00:00:00 GMT" ∧
     fooConfig.overrideLastModified = false ∧
     strptimeTimestamp "Mon, 01 Jan 2024 00:00:00 GMT" =
       some { year := 2024, month := 1, day := 1,
              hour := 0, minute := 0, second := 0 }) ∧
    ((checkPage {} "foo" fooConfig c5Prior (.resp c5Resp) "now").isRaised = false ∧
     (checkPage {} "foo" fooConfig c5Prior (.resp c5Resp) "now").resultD.changed = true ∧
     (checkPage {} "foo" fooConfig c5Prior (.resp c5Resp) "now").resultD.reason
       = Reason.timestamp ∧
     (checkPage {} "foo" fooConfig c5Prior (.resp c5Resp) "now").resultD.data "foo" =
       some { (c5Prior "foo").getD {} with
              last_modified := some "Mon, 01 Jan 2024 00:00:00 GMT",
              last_error := some false }) :=
  ⟨⟨by decide, by decide, by decide, by decide⟩,
   c5_timestamp_path {} "foo" fooConfig c5Prior c5Resp "now"
     "Mon, 01 Jan 2024 00:00:00 GMT"
     { year := 2024, month := 1, day := 1, hour := 0, minute := 0, second := 0 }
     (by decide) (by decide) (by decide) (by decide)⟩

/-- C6: for every page whose fetch ends in a transport failure or a
non-success response, absent `--break-on-error` the evaluation does not
raise: it sets the page's `last_error` flag to true preserving every
other prior field, and the verdict is `changed = false` with reason
`error`. -/
theorem c6_failure_handling (args : Args) (name : String) (cfg : PageConfig)
    (data : DataMap) (fetch : FetchResult) (now : String)
    (hb : args.break_on_error = false) (hf : fetchFailed fetch = true) :
    (checkPage args name cfg data fetch now).isRaised = false ∧
    (checkPage args name cfg data fetch now).resultD.changed = false ∧
    (checkPage args name cfg data fetch now).resultD.reason = Reason.error ∧
    (checkPage args name cfg data fetch now).resultD.data name =
      some { (data name).getD {} with last_error := some true } := by
  cases fetch with
  | exn d =>
      unfold checkPage
      simp only [hb, Bool.false_eq_true, if_false]
      split <;> simp [Outcome.isRaised, Outcome.resultD, setRecord]
  | resp r =>
      have hok : r.ok = false := by
        have := hf
        unfold fetchFailed at this
        simpa using this
      have hge : ¬ r.status < 400 := by
        unfold Response.ok at hok
        exact of_decide_eq_false hok
      have h304 : (r.status == 304) = false := by
        rw [beq_eq_false_iff_ne]
        omega
      unfold checkPage
      simp only [hok, Bool.false_eq_true, if_false, h304]
      split <;> simp [Outcome.isRaised, Outcome.resultD, setRecord]

/-- Witness for C6 at a concrete input: an HTTP 500 against a prior
record with a stored digest. -/
theorem c6_failure_handling_witness :
    (({} : Args).break_on_error = false ∧ fetchFailed (.resp c6Resp) = true) ∧
    ((checkPage {} "foo" fooConfig c5Prior (.resp c6Resp) "now").isRaised = false ∧
     (checkPage {} "foo" fooConfig c5Prior (.resp c6Resp) "now").resultD.changed = false ∧
     (checkPage {} "foo" fooConfig c5Prior (.resp c6Resp) "now").resultD.reason
       = Reason.error ∧
     (checkPage {} "foo" fooConfig c5Prior (.resp c6Resp) "now").resultD.data "foo" =
       some { (c5Prior "foo").getD {} with last_error := some true }) :=
  ⟨⟨by decide, by decide⟩,
   c6_failure_handling {} "foo" fooConfig c5Prior (.resp c6Resp) "now"
     (by decide) (by decide)⟩

/-- C7: the extractor yields exactly the matching elements' pretty-printed
bytes concatenated in document order, and `md5sum` over it digests that
concatenation; with no match the produced byte sequence is empty and the
digest is the digest of empty input.  The hypothesis records that
`prettify` never serializes an element to the empty string. -/
theorem c7_selective_extraction (doc : List Element) (crit : Criteria)
    (hne : ∀ e ∈ findAll doc crit, e.pretty ≠ []) :
    md5sumSoup (mkSoupHasher doc crit) =
      md5hex (((findAll doc crit).map Element.pretty).flatten) ∧
    (findAll doc crit = [] →
      (mkSoupHasher doc crit).readAll = [] ∧
      md5sumSoup (mkSoupHasher doc crit) = md5hex []) := by
  have h := md5sumSoup_eq doc crit hne
  refine ⟨h, fun hempty => ⟨?_, ?_⟩⟩
  · unfold mkSoupHasher
    rw [hempty]
    rw [SoupHasher.readAll]
    simp [SoupHasher.read_exhausted]
  · rw [h, hempty]
    simp

/-- Witness for C7 at a concrete input: two `div#content` elements around
an unrelated `p`; the digest is that of the two matched serializations
concatenated in document order. -/
theorem c7_selective_extraction_witness :
    (∀ e ∈ findAll c7Doc c7Crit, e.pretty ≠ []) ∧
    (md5sumSoup (mkSoupHasher c7Doc c7Crit) =
      md5hex (((findAll c7Doc c7Crit).map Element.pretty).flatten) ∧
     (findAll c7Doc c7Crit = [] →
       (mkSoupHasher c7Doc c7Crit).readAll = [] ∧
       md5sumSoup (mkSoupHasher c7Doc c7Crit) = md5hex [])) :=
  ⟨by decide, c7_selective_extraction c7Doc c7Crit (by decide)⟩

/-- C8 counterexample to the claim as stated: with no prior state, a
successful fetch (HTTP 200) whose `Last-Modified` value is an
asctime-style date makes `strptime` raise before anything is stored:
no state record is produced at all, populated or otherwise. -/
theorem c8_first_run_unparseable_raises :
    emptyData "foo" = none ∧
    Response.ok c8BadResp = true ∧
    strptimeTimestamp "Sun Nov  6 08:49:37 1994" = none ∧
    (checkPage {} "foo" fooConfig emptyData (.resp c8BadResp) "now").isRaised = true ∧
    (checkPage {} "foo" fooConfig emptyData (.resp c8BadResp) "now").dataD emptyData
      "foo" = none := by
  decide

/-- C8 (amended): for every page with no prior state entry, a successful
fetch that survives the timestamp branch (`Last-Modified` absent,
overridden, or parseable) is not treated as a failure (no raise, reason
is not `error`) and produces a state record in which the timestamp or
the digest is populated.  With an unparseable header the run instead
aborts in `strptime` before any state is recorded
(`c8_first_run_unparseable_raises` shows this at a concrete input). -/
theorem c8_first_run (args : Args) (name : String) (cfg : PageConfig)
    (data : DataMap) (r : Response) (now : String)
    (hprior : data name = none) (hok : r.ok = true)
    (hparse : lastModifiedParseable cfg r = true) :
    (checkPage args name cfg data (.resp r) now).isRaised = false ∧
    (checkPage args name cfg data (.resp r) now).resultD.reason ≠ Reason.error ∧
    ((((checkPage args name cfg data (.resp r) now).resultD.data name).getD
        {}).last_modified ≠ none ∨
     (((checkPage args name cfg data (.resp r) now).resultD.data name).getD
        {}).hash ≠ none) := by
  cases hlm : r.lastModified with
  | none =>
      simp [checkPage, hlm, hok, hprior, Outcome.isRaised, Outcome.resultD, setRecord]
  | some lm =>
      cases hov : cfg.overrideLastModified with
      | false =>
          have hps : (strptimeTimestamp lm).isSome = true := by
            unfold lastModifiedParseable at hparse
            rw [hlm] at hparse
            simpa [hov] using hparse
          rcases Option.isSome_iff_exists.mp hps with ⟨t, ht⟩
          simp [checkPage, hlm, hov, hok, hprior, ht, Outcome.isRaised,
            Outcome.resultD, setRecord]
      | true =>
          simp [checkPage, hlm, hov, hok, hprior, Outcome.isRaised, Outcome.resultD,
            setRecord]

/-- Witness for C8 at a concrete input: empty prior state, plain 200
without a `Last-Modified` header. -/
theorem c8_first_run_witness :
    (emptyData "foo" = none ∧ Response.ok c8Resp = true ∧
     lastModifiedParseable fooConfig c8Resp = true) ∧
    ((checkPage {} "foo" fooConfig emptyData (.resp c8Resp) "now").isRaised = false ∧
     (checkPage {} "foo" fooConfig emptyData (.resp c8Resp) "now").resultD.reason
       ≠ Reason.error ∧
     ((((checkPage {} "foo" fooConfig emptyData (.resp c8Resp) "now").resultD.data
          "foo").getD {}).last_modified ≠ none ∨
      (((checkPage {} "foo" fooConfig emptyData (.resp c8Resp) "now").resultD.data
          "foo").getD {}).hash ≠ none)) :=
  ⟨⟨by decide, by decide, by decide⟩,
   c8_first_run {} "foo" fooConfig emptyData c8Resp "now" (by decide) (by decide)
     (by decide)⟩

/-- C9: evaluating one page touches at most that page's entry: for every
other name `m`, the stored record under `m` is unchanged whatever the
fetch outcome and flags (a raise leaves the whole mapping in place). -/
theorem c9_cross_page_frame (args : Args) (name : String) (cfg : PageConfig)
    (data : DataMap) (fetch : FetchResult) (now : String) (m : String)
    (hm : m ≠ name) :
    (checkPage args name cfg data fetch now).dataD data m = data m := by
  cases fetch with
  | exn d =>
      simp only [checkPage]
      repeat' split
      all_goals simp [Outcome.dataD, setRecord, hm]
  | resp r =>
      simp only [checkPage]
      repeat' split
      all_goals simp [Outcome.dataD, setRecord, hm]

/-- Witness for C9 at a concrete input: evaluating `"foo"` leaves the
record under `"bar"` unchanged. -/
theorem c9_cross_page_frame_witness :
    ("bar" ≠ "foo") ∧
    (checkPage {} "foo" fooConfig c2Prior (.resp fooResp1) "now").dataD c2Prior "bar"
      = c2Prior "bar" :=
  ⟨by decide,
   c9_cross_page_frame {} "foo" fooConfig c2Prior (.resp fooResp1) "now" "bar"
     (by decide)⟩

/-- C10: on the hash fallback (no `Last-Modified` header, or override
set) the persisted `last_error` flag keeps its prior value whether or
not the digest changed. -/
theorem c10_hash_path_keeps_flag (args : Args) (name : String) (cfg : PageConfig)
    (data : DataMap) (r : Response) (now : String)
    (hok : r.ok = true)
    (hpath : r.lastModified = none ∨ cfg.overrideLastModified = true) :
    (checkPage args name cfg data (.resp r) now).isRaised = false ∧
    (((checkPage args name cfg data (.resp r) now).resultD.data name).getD
        {}).last_error = ((data name).getD {}).last_error := by
  rcases hpath with hlm | hov
  · simp only [checkPage, hlm, hok]
    repeat' split
    all_goals simp_all [Outcome.isRaised, Outcome.resultD, setRecord]
  · cases hlm : r.lastModified with
    | none =>
        simp only [checkPage, hlm, hok]
        repeat' split
        all_goals simp_all [Outcome.isRaised, Outcome.resultD, setRecord]
    | some lm =>
        simp only [checkPage, hlm, hok, hov]
        repeat' split
        all_goals simp_all [Outcome.isRaised, Outcome.resultD, setRecord]

/-- Witness for C10 at a concrete input: unchanged digest, prior flag
set; the flag stays set. -/
theorem c10_hash_path_keeps_flag_witness :
    (Response.ok fooResp2 = true ∧
     (fooResp2.lastModified = none ∨ fooConfig.overrideLastModified = true)) ∧
    ((checkPage {} "foo" fooConfig c10Prior (.resp fooResp2) "now").isRaised = false ∧
     (((checkPage {} "foo" fooConfig c10Prior (.resp fooResp2) "now").resultD.data
         "foo").getD {}).last_error = ((c10Prior "foo").getD {}).last_error) :=
  ⟨⟨by decide, Or.inl (by decide)⟩,
   c10_hash_path_keeps_flag {} "foo" fooConfig c10Prior fooResp2 "now"
     (by decide) (Or.inl (by decide))⟩

end Checker
